import Mathlib

/-!
Verification development for the nexus-led-scoreboard scheduler core.

This file gives a shallow embedding of the data-refresh scheduler and
display-mode state machine of the repository:

* `Game` and its status predicates mirror the `Game` class of
  `src/nexus_led_scoreboard/data/data_parser.py`;
* `selectMode` mirrors `ScoreboardManager._determine_overall_display_mode`
  of `src/nexus_led_scoreboard/scoreboard_manager.py`;
* `fetchAllSportData` mirrors `ScoreboardManager._fetch_all_sport_data`;
* `runLoopIter` / `runSteps` mirror the top-level `ScoreboardManager.run` loop;
* `parse_events` mirrors `ESPNDataParser.parse_events`.

Modelling conventions: timestamps are integer seconds (UTC); a Python
`datetime` is its epoch-second value and a `date` is its day number
(epoch seconds floor-divided by 86400).  Python `dict.get` of a possibly
missing key is an `Option` with `Option.getD` for the default.  Python
exceptions are `Except String`; a `try`/`except` that skips an item maps
to `Option`.  Python `int(...)` truncation of a nonnegative number of
seconds is the identity on the integer model.
-/

deriving instance DecidableEq for Except

namespace Scoreboard

/-- A parsed game record, mirroring the `Game` class of `data_parser.py`.
The five fields checked by the parser's critical-field test (`game_id`,
`start_time`, `status_state`, `home_team_id`, `away_team_id`) are modelled
as plain values since the parser only constructs a `Game` after that test
succeeds; the remaining fields may be absent and are `Option`s. -/
structure Game where
  game_id : String
  sport : Option String := none
  league : Option String := none
  start_time : Int
  status_state : String
  status_detail : Option String := none
  home_team_id : String
  home_team_name : Option String := none
  home_team_abbrev : Option String := none
  home_score : Option Int := none
  away_team_id : String
  away_team_name : Option String := none
  away_team_abbrev : Option String := none
  away_score : Option Int := none
  is_favorite : Bool := false
deriving Repr, DecidableEq

/-- Mirrors the `is_live` property: `status_state == "in_progress"`. -/
def Game.is_live (g : Game) : Bool := g.status_state == "in_progress"

/-- Mirrors the `is_pregame` property: `status_state == "pre"`. -/
def Game.is_pregame (g : Game) : Bool := g.status_state == "pre"

/-- Mirrors the `is_postgame` property: `status_state == "post"`. -/
def Game.is_postgame (g : Game) : Bool := g.status_state == "post"

/-- The `refresh_intervals` section of the configuration dict; a `none`
field models a missing key, read through `Option.getD` just as the code
reads the dict through `dict.get` with a default. -/
structure RefreshIntervals where
  in_progress_favorite_team : Option Int := none
  in_progress_other_games : Option Int := none
  pre_game_post_game : Option Int := none
  no_games : Option Int := none
  daily_schedule_check_time : Option String := none
deriving Repr, DecidableEq

/-- The `display_settings` section of the configuration dict. -/
structure DisplaySettings where
  live_mode_enabled : Option Bool := none
deriving Repr, DecidableEq

/-- One league entry under a sport in the `sports` configuration section. -/
structure LeagueConfig where
  id : Option String := none
  favorite_team_ids : List String := []
deriving Repr, DecidableEq

/-- One sport entry of the `sports` configuration section. -/
structure SportConfig where
  leagues : List LeagueConfig := []
deriving Repr, DecidableEq

/-- The parts of the application configuration consumed by the scheduler. -/
structure Config where
  sports : List (String × SportConfig) := []
  refresh_intervals : RefreshIntervals := {}
  display_settings : DisplaySettings := {}
deriving Repr, DecidableEq

/-- Models Python `str.split(sep)` for a one-character separator, working
on the character list of the string: `"".split(":") == [""]`,
`"a:b".split(":") == ["a", "b"]`, `"::".split(":") == ["", "", ""]`. -/
def pySplitOn (sep : Char) : List Char → List (List Char)
  | [] => [[]]
  | c :: rest =>
    match pySplitOn sep rest with
    | [] => [[c]]
    | h :: t => if c = sep then [] :: h :: t else (c :: h) :: t

/-- Surrounding-whitespace strip, as Python `int()` applies to its input. -/
def pyStrip (cs : List Char) : List Char :=
  ((cs.dropWhile Char.isWhitespace).reverse.dropWhile Char.isWhitespace).reverse

/-- Digit-string accumulator used by `pyIntChars`; `none` on a non-digit. -/
def digitsVal : List Char → Nat → Option Nat
  | [], acc => some acc
  | c :: rest, acc =>
    if c.isDigit then digitsVal rest (acc * 10 + (c.toNat - 48)) else none

/-- Models Python `int(s)` on the characters of a string: strip surrounding
whitespace, an optional sign, then decimal digits; `none` models the
`ValueError` raised otherwise.  (Python additionally allows underscores
between digits, which no configuration value in this repository uses.) -/
def pyIntChars (cs : List Char) : Option Int :=
  match pyStrip cs with
  | [] => none
  | c :: rest =>
    if c = '+' then
      match rest with
      | [] => none
      | _ => (digitsVal rest 0).map Int.ofNat
    else if c = '-' then
      match rest with
      | [] => none
      | _ => (digitsVal rest 0).map (fun n => -(n : Int))
    else (digitsVal (c :: rest) 0).map Int.ofNat

/-- Models `check_hour, check_minute = map(int, s.split(":"))` inside the
`try`: `some (h, m)` when the split yields exactly two integer-parseable
parts, `none` for the `ValueError` (from `int` or from unpacking) that the
surrounding `except ValueError` catches. -/
def parseClockTime (s : String) : Option (Int × Int) :=
  match pySplitOn ':' s.data with
  | [hs, ms] =>
    match pyIntChars hs, pyIntChars ms with
    | some h, some m => some (h, m)
    | _, _ => none
  | _ => none

/-- Models `datetime.min.time().replace(hour=h, minute=m)` as the second
of the day, raising `ValueError` (uncaught at its call sites) when the
hour or minute is out of range. -/
def mkCheckTime (h m : Int) : Except String Int :=
  if 0 ≤ h ∧ h < 24 ∧ 0 ≤ m ∧ m < 60 then .ok (h * 3600 + m * 60)
  else .error "ValueError: hour or minute out of range"

/-- The live-favorite bucket: `g.is_live and g.is_favorite`. -/
def liveFavoriteGames (parsed_games : List Game) : List Game :=
  parsed_games.filter (fun g => g.is_live && g.is_favorite)

/-- The live-other bucket: `g.is_live and not g.is_favorite`. -/
def liveOtherGames (parsed_games : List Game) : List Game :=
  parsed_games.filter (fun g => g.is_live && !g.is_favorite)

/-- The pregame bucket: games with `g.is_pregame and g.start_time > now`,
sorted ascending by `start_time`.  Python's `sorted` is a stable sort keyed
on `start_time`; `List.insertionSort` with the non-strict key order is also
stable, so it computes the same list. -/
def pregameGames (parsed_games : List Game) (now : Int) : List Game :=
  (parsed_games.filter (fun g => g.is_pregame && decide (now < g.start_time))).insertionSort
    (fun a b => a.start_time ≤ b.start_time)

/-- The postgame-favorite bucket: `g.is_postgame and g.is_favorite`. -/
def postgameFavoriteGames (parsed_games : List Game) : List Game :=
  parsed_games.filter (fun g => g.is_postgame && g.is_favorite)

/-- The postgame-other bucket: `g.is_postgame and not g.is_favorite`. -/
def postgameOtherGames (parsed_games : List Game) : List Game :=
  parsed_games.filter (fun g => g.is_postgame && !g.is_favorite)

/-- Shallow embedding of `ScoreboardManager._determine_overall_display_mode`.
Returns `(mode, next_refresh_interval_seconds)`; the `Except` layer carries
the `ValueError` that `datetime.combine`/`time.replace` raises, uncaught, in
the no-games branch when the configured check time parses to an out-of-range
hour or minute. -/
def selectMode (cfg : Config) (parsed_games : List Game) (now : Int) :
    Except String (String × Int) :=
  let live_favorite_games := liveFavoriteGames parsed_games
  let live_other_games := liveOtherGames parsed_games
  let pregame_games := pregameGames parsed_games now
  let postgame_favorite_games := postgameFavoriteGames parsed_games
  let postgame_other_games := postgameOtherGames parsed_games
  let fav_live_interval := cfg.refresh_intervals.in_progress_favorite_team.getD 5
  let other_live_interval := cfg.refresh_intervals.in_progress_other_games.getD 15
  let pre_post_interval := cfg.refresh_intervals.pre_game_post_game.getD 300
  let no_games_interval := cfg.refresh_intervals.no_games.getD 900
  if cfg.display_settings.live_mode_enabled.getD false = true ∧ live_favorite_games ≠ [] then
    .ok ("live_favorites", fav_live_interval)
  else if live_other_games ≠ [] then
    .ok ("in_progress_games", other_live_interval)
  else
    match pregame_games with
    | earliest_game :: _ =>
      let time_until_earliest_game := earliest_game.start_time - now
      if time_until_earliest_game < 300 ∧ 0 < time_until_earliest_game then
        .ok ("pre_game_scheduled", pre_post_interval)
      else if time_until_earliest_game ≤ 0 then
        .ok ("pre_game_scheduled", min pre_post_interval 60)
      else
        .ok ("pre_game_scheduled", max (min (time_until_earliest_game - 60) pre_post_interval) 30)
    | [] =>
      if postgame_favorite_games ≠ [] then
        .ok ("post_game_finished_favorite", pre_post_interval)
      else if postgame_other_games ≠ [] then
        .ok ("post_game_finished_all", pre_post_interval)
      else
        let parsed := (parseClockTime (cfg.refresh_intervals.daily_schedule_check_time.getD "05:00")).getD (5, 0)
        match mkCheckTime parsed.1 parsed.2 with
        | .error e => .error e
        | .ok tod =>
          let current_date := now.fdiv 86400
          let next_check_dt_today := current_date * 86400 + tod
          let time_until_next_check :=
            if now < next_check_dt_today then next_check_dt_today - now
            else next_check_dt_today + 86400 - now
          .ok ("no_games_today", max (min time_until_next_check no_games_interval) 30)

/-- The mutable fields of `ScoreboardManager` threaded through the loop.
`last_daily_schedule_check_date` stores a day number (a Python `date`). -/
structure SchedulerState where
  current_display_mode : String := "no_games_today"
  last_data_fetch_time : Option Int := none
  all_games_data : List Game := []
  last_daily_schedule_check_date : Option Int := none
deriving Repr, DecidableEq

/-- One step of the per-league loop of `_fetch_all_sport_data`: for a
league entry with a truthy id, call the fetch client and parser (abstracted
as `fetchParse`, whose `Except.error` models any exception raised while
fetching or parsing that league) and extend the accumulator with the parsed
games; a failing league is logged and skipped, contributing no games. -/
def fetchLeagueStep (fetchParse : String → String → Except String (List Game))
    (sport_value : String) (acc2 : List Game) (lc : LeagueConfig) : List Game :=
  match lc.id with
  | none => acc2
  | some league_id =>
    if league_id ≠ "" then
      match fetchParse sport_value league_id with
      | .ok parsed_games_for_league => acc2 ++ parsed_games_for_league
      | .error _ => acc2
    else acc2

/-- The per-league fetch-and-parse loop shared by both branches of
`_fetch_all_sport_data`: iterate over every configured (sport, league)
pair, accumulating each league's parsed games via `fetchLeagueStep`. -/
def fetchLeagues (sports : List (String × SportConfig))
    (fetchParse : String → String → Except String (List Game)) : List Game :=
  sports.foldl (fun acc p => p.2.leagues.foldl (fetchLeagueStep fetchParse p.1) acc) []

/-- The (sport, league-id) pair a league entry contributes to the fetch
loop, if its id is truthy. -/
def leaguePairOf (sport_value : String) (lc : LeagueConfig) : Option (String × String) :=
  match lc.id with
  | some league_id => if league_id ≠ "" then some (sport_value, league_id) else none
  | none => none

/-- The configured (sport, league-id) pairs that the fetch loop visits, in
order; used to characterise `fetchLeagues` as the concatenation of the
successful leagues' games. -/
def leaguePairs (sports : List (String × SportConfig)) : List (String × String) :=
  (sports.map (fun p => p.2.leagues.filterMap (leaguePairOf p.1))).flatten

/-- Written from the spec's words for the fault-isolation property: the
games of the pass are exactly the concatenation, in configuration order, of
each successfully fetched league's games, a failing league contributing
zero games. -/
def specSuccessfulLeagueGames (fetchParse : String → String → Except String (List Game))
    (pairs : List (String × String)) : List Game :=
  (pairs.map (fun p =>
    match fetchParse p.1 p.2 with
    | .ok parsed_games_for_league => parsed_games_for_league
    | .error _ => [])).flatten

/-- The `is_new_day_for_check` condition of `_fetch_all_sport_data`:
no prior check date, or the prior date is before today, or (the prior date
is today, the clock is at or past today's check time, and the last pass
produced zero games). -/
def isNewDayForCheck (st : SchedulerState) (current_date today_check_dt now : Int) : Bool :=
  st.last_daily_schedule_check_date.isNone
    || (match st.last_daily_schedule_check_date with
        | some d => decide (d < current_date)
        | none => false)
    || (match st.last_daily_schedule_check_date with
        | some d => decide (d = current_date) && decide (today_check_dt ≤ now)
            && st.all_games_data.isEmpty
        | none => false)

/-- Shallow embedding of `ScoreboardManager._fetch_all_sport_data`.  The
`Except` layer carries the `ValueError` raised, uncaught, by the
`today_check_dt` construction when the configured check time parses to an
out-of-range hour or minute; per-league fetch/parse failures are absorbed
inside `fetchLeagues`.  Both the full-discovery branch and the incremental
branch run the same per-league loop and replace `all_games_data` wholesale;
only the full branch updates `last_daily_schedule_check_date`. -/
def fetchAllSportData (cfg : Config)
    (fetchParse : String → String → Except String (List Game))
    (now : Int) (st : SchedulerState) : Except String SchedulerState :=
  let current_date := now.fdiv 86400
  let daily_check_time_str := cfg.refresh_intervals.daily_schedule_check_time.getD "05:00"
  let parsed := (parseClockTime daily_check_time_str).getD (5, 0)
  match mkCheckTime parsed.1 parsed.2 with
  | .error e => .error e
  | .ok tod =>
    let today_check_dt := current_date * 86400 + tod
    if isNewDayForCheck st current_date today_check_dt now || st.all_games_data.isEmpty then
      .ok { st with
        last_daily_schedule_check_date := some current_date,
        all_games_data := fetchLeagues cfg.sports fetchParse,
        last_data_fetch_time := some now }
    else
      .ok { st with
        all_games_data := fetchLeagues cfg.sports fetchParse,
        last_data_fetch_time := some now }

/-- One iteration of the `try` block of `ScoreboardManager.run`: fetch all
sport data, select the display mode, store it, and report the sleep
interval.  The returned state carries the mutations performed before any
exception; the `Except` value is the exception escaping the block, if any. -/
def iterationBody (cfg : Config)
    (fetchParse : String → String → Except String (List Game))
    (now : Int) (st : SchedulerState) : SchedulerState × Except String Int :=
  match fetchAllSportData cfg fetchParse now st with
  | .error e => (st, .error e)
  | .ok st2 =>
    match selectMode cfg st2.all_games_data now with
    | .error e => (st2, .error e)
    | .ok r => ({ st2 with current_display_mode := r.1 }, .ok r.2)

/-- One iteration of the `while True` loop of `ScoreboardManager.run`, for
an arbitrary loop body: a normal body result gives its sleep interval; an
exception is caught by the `except` clause, which sleeps a fixed 30 seconds
instead.  The total return type records that the loop itself never
propagates an exception. -/
def runLoopIter (body : SchedulerState → SchedulerState × Except String Int)
    (st : SchedulerState) : SchedulerState × Int :=
  match body st with
  | (st2, .ok sleep_seconds) => (st2, sleep_seconds)
  | (st2, .error _) => (st2, 30)

/-- `n` iterations of the `run` loop; total for every `n`, modelling that
the loop always continues to the next iteration. -/
def runSteps (body : SchedulerState → SchedulerState × Except String Int) :
    Nat → SchedulerState → SchedulerState
  | 0, st => st
  | n + 1, st => runSteps body n (runLoopIter body st).1

/-- The `status.type` object of a raw event; a missing `status` or `type`
key yields an empty dict, modelled as both fields absent. -/
structure RawStatusType where
  state : Option String := none
  detail : Option String := none
deriving Repr, DecidableEq

/-- The `team` object of a raw competitor. -/
structure RawTeam where
  id : Option String := none
  displayName : Option String := none
  name : Option String := none
  abbreviation : Option String := none
deriving Repr, DecidableEq

/-- A raw score value: either a bare number or an object carrying a
`value` key, the two shapes the parser's score extraction distinguishes. -/
inductive RawScore where
  | num (n : Int)
  | obj (value : Option Int)
deriving Repr, DecidableEq

/-- A raw competitor entry of a competition. -/
structure RawCompetitor where
  homeAway : Option String := none
  team : Option RawTeam := none
  score : Option RawScore := none
deriving Repr, DecidableEq

/-- A raw competition entry of an event. -/
structure RawCompetition where
  competitors : List RawCompetitor := []
deriving Repr, DecidableEq

/-- A raw event of the scoreboard payload. -/
structure RawEvent where
  id : Option String := none
  date : Option String := none
  status : Option RawStatusType := none
  competitions : List RawCompetition := []
deriving Repr, DecidableEq

/-- The `sport` object of the payload (`none` models the key missing or
not holding a dict). -/
structure RawSport where
  slug : Option String := none
deriving Repr, DecidableEq

/-- One entry of the payload's `leagues` list. -/
structure RawLeague where
  slug : Option String := none
deriving Repr, DecidableEq

/-- The raw scoreboard payload handed to `parse_events`.  `events = none`
models a falsy payload or a payload without an `events` key. -/
structure RawData where
  events : Option (List RawEvent) := none
  sport : Option RawSport := none
  leagues : Option (List RawLeague) := none
deriving Repr, DecidableEq

/-- Python truthiness of an optional string: `None` and `""` are falsy. -/
def truthyStr : Option String → Bool
  | none => false
  | some s => s ≠ ""

/-- Python `str(x)` for an optional string: `str(None) == "None"`. -/
def pyStrOfOpt : Option String → String
  | none => "None"
  | some s => s

/-- The `start_time` computation of the per-event `try`: a missing or
falsy `date` gives `start_time = None` without raising, while a present
date string goes through `fromIso` (abstracting
`datetime.fromisoformat` after the `Z` replacement); the outer `none`
models the `ValueError` raised on an unparseable date, which the
per-event `except` turns into a skip. -/
def eventStartTimeResult (fromIso : String → Option Int) (event_data : RawEvent) :
    Option (Option Int) :=
  match event_data.date with
  | none => some none
  | some s =>
    if s = "" then some none
    else match fromIso s with
      | some t => some (some t)
      | none => none

/-- The home-team id as the parser extracts it: the `team.id` of the first
competitor of the first competition whose `homeAway` is `"home"`. -/
def eventHomeTeamId (event_data : RawEvent) : Option String :=
  match event_data.competitions with
  | [] => none
  | competition_data :: _ =>
    ((competition_data.competitors.find? (fun c => c.homeAway == some "home")).bind
      (fun c => c.team)).bind (fun t => t.id)

/-- The away-team id as the parser extracts it. -/
def eventAwayTeamId (event_data : RawEvent) : Option String :=
  match event_data.competitions with
  | [] => none
  | competition_data :: _ =>
    ((competition_data.competitors.find? (fun c => c.homeAway == some "away")).bind
      (fun c => c.team)).bind (fun t => t.id)

/-- The body of the per-event `try` of `ESPNDataParser.parse_events`,
returning `some` game exactly when the event is emitted.  An event is
skipped when its date fails to parse (`eventStartTimeResult` is `none`),
when it has no competitions, or when the critical-field check
`all([game_id, start_time, status_state, home_team_id, away_team_id])`
fails (Python truthiness: a missing field or empty string fails it). -/
def parseEventAux (fromIso : String → Option Int)
    (favorite_team_ids : List (String × List String))
    (sport_slug league_slug : Option String) (event_data : RawEvent) : Option Game :=
  let game_id := event_data.id
  match eventStartTimeResult fromIso event_data with
  | none => none
  | some start_time =>
    let status_state := event_data.status.bind (fun st => st.state)
    let status_detail := event_data.status.bind (fun st => st.detail)
    match event_data.competitions with
    | [] => none
    | competition_data :: _ =>
      let competitors := competition_data.competitors
      let home_team_data := competitors.find? (fun c => c.homeAway == some "home")
      let away_team_data := competitors.find? (fun c => c.homeAway == some "away")
      let home_team_info := home_team_data.bind (fun c => c.team)
      let away_team_info := away_team_data.bind (fun c => c.team)
      let home_team_id := home_team_info.bind (fun t => t.id)
      let home_team_name :=
        (home_team_info.bind (fun t => t.displayName)).orElse
          (fun _ => home_team_info.bind (fun t => t.name))
      let home_team_abbrev := home_team_info.bind (fun t => t.abbreviation)
      let home_score : Option Int :=
        match home_team_data.bind (fun c => c.score) with
        | some (.obj v) => v
        | some (.num n) => some n
        | none => none
      let away_team_id := away_team_info.bind (fun t => t.id)
      let away_team_name :=
        (away_team_info.bind (fun t => t.displayName)).orElse
          (fun _ => away_team_info.bind (fun t => t.name))
      let away_team_abbrev := away_team_info.bind (fun t => t.abbreviation)
      let away_score : Option Int :=
        match away_team_data.bind (fun c => c.score) with
        | some (.obj v) => v
        | some (.num n) => some n
        | none => none
      let is_favorite :=
        match league_slug with
        | some ls =>
          let favorite_ids_for_league :=
            ((favorite_team_ids.find? (fun p => p.1 == ls)).map (fun p => p.2)).getD []
          favorite_ids_for_league.contains (pyStrOfOpt home_team_id)
            || favorite_ids_for_league.contains (pyStrOfOpt away_team_id)
        | none => false
      match game_id, start_time, status_state, home_team_id, away_team_id with
      | some gid, some st_val, some ss, some hid, some aid =>
        if gid ≠ "" ∧ ss ≠ "" ∧ hid ≠ "" ∧ aid ≠ "" then
          some { game_id := gid
                 sport := sport_slug
                 league := league_slug
                 start_time := st_val
                 status_state := ss
                 status_detail := status_detail
                 home_team_id := hid
                 home_team_name := home_team_name
                 home_team_abbrev := home_team_abbrev
                 home_score := home_score
                 away_team_id := aid
                 away_team_name := away_team_name
                 away_team_abbrev := away_team_abbrev
                 away_score := away_score
                 is_favorite := is_favorite }
        else none
      | _, _, _, _, _ => none

/-- Shallow embedding of `ESPNDataParser.parse_events`: an empty payload or
one without an `events` key yields `[]`; otherwise each event is parsed
inside a `try`, appending a game when `parseEventAux` emits one and
skipping the event otherwise. -/
def parse_events (fromIso : String → Option Int)
    (favorite_team_ids : List (String × List String)) (raw_data : RawData) :
    List Game :=
  match raw_data.events with
  | none => []
  | some events =>
    let sport_slug := raw_data.sport.bind (fun sp => sp.slug)
    let league_slug :=
      match raw_data.leagues with
      | some (first_league :: _) => first_league.slug
      | _ => none
    events.foldl (fun games e =>
      match parseEventAux fromIso favorite_team_ids sport_slug league_slug e with
      | some g => games ++ [g]
      | none => games) []

/-- Fixture: configuration with live mode enabled and a favorite-live
interval of 7 seconds. -/
def cfgLiveEnabled : Config :=
  { display_settings := { live_mode_enabled := some true },
    refresh_intervals := { in_progress_favorite_team := some 7 } }

/-- Fixture: configuration with live mode enabled and all intervals left to
their code defaults. -/
def cfgEnabledOnly : Config :=
  { display_settings := { live_mode_enabled := some true } }

/-- Fixture: configuration with `pre_game_post_game = 120`. -/
def cfgPre120 : Config :=
  { refresh_intervals := { pre_game_post_game := some 120 } }

/-- Fixture: configuration with `pre_game_post_game = 300`. -/
def cfgPre300 : Config :=
  { refresh_intervals := { pre_game_post_game := some 300 } }

/-- Fixture: configuration whose check time parses to the out-of-range
hour 25. -/
def cfgBadTime : Config :=
  { refresh_intervals := { daily_schedule_check_time := some "25:00" } }

/-- Fixture: a live favorite game. -/
def gLiveFav : Game :=
  { game_id := "401", start_time := 5000, status_state := "in_progress",
    home_team_id := "10", away_team_id := "12", is_favorite := true }

/-- Fixture: a live non-favorite game. -/
def gLiveOther : Game :=
  { game_id := "402", start_time := 5000, status_state := "in_progress",
    home_team_id := "20", away_team_id := "21" }

/-- Fixture: a `pre` game whose start time 999995 is 5 seconds before the
reference clock value 1000000. -/
def gPrePast : Game :=
  { game_id := "403", start_time := 999995, status_state := "pre",
    home_team_id := "30", away_team_id := "31" }

/-- Fixture: a `pre` game whose start time 1010000 is 10000 seconds after
the reference clock value 1000000. -/
def gPreFar : Game :=
  { game_id := "404", start_time := 1010000, status_state := "pre",
    home_team_id := "40", away_team_id := "41" }

/-- Fixture: a finished favorite game. -/
def gPostFav : Game :=
  { game_id := "405", start_time := 900000, status_state := "post",
    home_team_id := "50", away_team_id := "51", is_favorite := true }

/-- Fixture: the freshly initialised scheduler state. -/
def st0 : SchedulerState := {}

/-- Fixture: two configured (sport, league) pairs. -/
def sportsTwo : List (String × SportConfig) :=
  [("football", { leagues := [{ id := some "nfl" }] }),
   ("baseball", { leagues := [{ id := some "mlb" }] })]

/-- Fixture: configuration carrying the two (sport, league) pairs. -/
def cfgTwo : Config := { sports := sportsTwo }

/-- Fixture: a fetch-and-parse stub for which the nfl league succeeds with
one game and every other league raises. -/
def fetchAB : String → String → Except String (List Game) :=
  fun _ league_id =>
    if league_id = "nfl" then .ok [gLiveOther] else .error "network error"

/-- Fixture: a fetch-and-parse stub that always succeeds with no games. -/
def fetchEmpty : String → String → Except String (List Game) :=
  fun _ _ => .ok []

/-- Fixture: a date parser that accepts every string as epoch second 0. -/
def fromIso0 : String → Option Int := fun _ => some 0

/-- Fixture: a raw event with every field absent. -/
def evNoId : RawEvent := {}

/-- Fixture: a complete raw event. -/
def evFull : RawEvent :=
  { id := some "401",
    date := some "2024-09-01T17:00:00+00:00",
    status := some { state := some "pre", detail := some "Scheduled" },
    competitions := [
      { competitors := [
          { homeAway := some "home", team := some { id := some "10" } },
          { homeAway := some "away", team := some { id := some "12" } }] }] }

/-- Fixture: the game `evFull` parses to under `fromIso0`. -/
def gFull : Game :=
  { game_id := "401", start_time := 0, status_state := "pre",
    status_detail := some "Scheduled", home_team_id := "10", away_team_id := "12" }

lemma ok_mode_ne {m1 m2 : String} {a b : Int} (hne : m1 ≠ m2) :
    (Except.ok (m1, a) : Except String (String × Int)) ≠ .ok (m2, b) := by
  intro h
  injection h with h1
  exact hne (congrArg Prod.fst h1)

lemma mem_pregameGames {games : List Game} {now : Int} {g : Game}
    (h : g ∈ pregameGames games now) :
    g.is_pregame = true ∧ now < g.start_time := by
  unfold pregameGames at h
  rw [List.mem_insertionSort] at h
  have h2 := List.mem_filter.mp h
  simpa using h2.2

lemma selectMode_pregameFar (cfg : Config) (games : List Game) (now : Int)
    (g : Game) (rest : List Game)
    (h1 : liveFavoriteGames games = []) (h2 : liveOtherGames games = [])
    (hp : pregameGames games now = g :: rest) (hd : 300 ≤ g.start_time - now) :
    selectMode cfg games now = .ok ("pre_game_scheduled",
      max (min (g.start_time - now - 60)
        (cfg.refresh_intervals.pre_game_post_game.getD 300)) 30) := by
  have hc1 : ¬(cfg.display_settings.live_mode_enabled.getD false = true
      ∧ liveFavoriteGames games ≠ []) := by simp [h1]
  have hc2 : ¬(liveOtherGames games ≠ []) := by simp [h2]
  have hnot1 : ¬(g.start_time - now < 300 ∧ 0 < g.start_time - now) := by omega
  have hnot2 : ¬(g.start_time - now ≤ 0) := by omega
  simp only [selectMode, hp]
  rw [if_neg hc1, if_neg hc2, if_neg hnot1, if_neg hnot2]

lemma selectMode_noGamesBranch (cfg : Config) (games : List Game) (now tod : Int)
    (h1 : liveFavoriteGames games = []) (h2 : liveOtherGames games = [])
    (h3 : pregameGames games now = []) (h4 : postgameFavoriteGames games = [])
    (h5 : postgameOtherGames games = [])
    (ht : mkCheckTime
        ((parseClockTime (cfg.refresh_intervals.daily_schedule_check_time.getD "05:00")).getD (5, 0)).1
        ((parseClockTime (cfg.refresh_intervals.daily_schedule_check_time.getD "05:00")).getD (5, 0)).2
        = .ok tod) :
    selectMode cfg games now = .ok ("no_games_today",
      max (min (if now < now.fdiv 86400 * 86400 + tod
                then now.fdiv 86400 * 86400 + tod - now
                else now.fdiv 86400 * 86400 + tod + 86400 - now)
        (cfg.refresh_intervals.no_games.getD 900)) 30) := by
  have hc1 : ¬(cfg.display_settings.live_mode_enabled.getD false = true
      ∧ liveFavoriteGames games ≠ []) := by simp [h1]
  have hc2 : ¬(liveOtherGames games ≠ []) := by simp [h2]
  have hc4 : ¬(postgameFavoriteGames games ≠ []) := by simp [h4]
  have hc5 : ¬(postgameOtherGames games ≠ []) := by simp [h5]
  simp only [selectMode, h3, ht]
  rw [if_neg hc1, if_neg hc2, if_neg hc4, if_neg hc5]

/-- C1: with `live_mode_enabled` true, any game list containing at least one
in-progress favorite game makes the mode selector return `live_favorites`
with the configured `in_progress_favorite_team` interval, regardless of the
other games present. -/
theorem live_favorites_priority_invariant
    (cfg : Config) (games : List Game) (now : Int) (g : Game)
    (hmem : g ∈ games) (hlive : g.is_live = true) (hfav : g.is_favorite = true)
    (henabled : cfg.display_settings.live_mode_enabled = some true)
    (fav_interval : Int)
    (hcfg : cfg.refresh_intervals.in_progress_favorite_team = some fav_interval) :
    selectMode cfg games now = .ok ("live_favorites", fav_interval) := by
  have hne : liveFavoriteGames games ≠ [] :=
    List.ne_nil_of_mem (List.mem_filter.mpr ⟨hmem, by simp [hlive, hfav]⟩)
  simp [selectMode, henabled, hcfg, hne]

/-- Witness for C1: a list mixing a live non-favorite, a pregame, a
postgame and a live favorite game selects `live_favorites` with sleep 7. -/
theorem live_favorites_priority_invariant_witness :
    selectMode cfgLiveEnabled [gLiveOther, gPrePast, gPostFav, gLiveFav] 1000000
      = .ok ("live_favorites", 7) :=
  live_favorites_priority_invariant cfgLiveEnabled
    [gLiveOther, gPrePast, gPostFav, gLiveFav] 1000000 gLiveFav
    (by decide) rfl rfl rfl 7 rfl

/-- C2 counterexample: a single `pre` game that started 5 seconds ago with
`pre_game_post_game = 120` does not yield `pre_game_scheduled` with sleep
60; it is filtered out of the pregame bucket and the selector falls through
to `no_games_today`. -/
theorem pregame_past_start_counterexample :
    selectMode cfgPre120 [gPrePast] 1000000 = .ok ("no_games_today", 900) ∧
      selectMode cfgPre120 [gPrePast] 1000000 ≠ .ok ("pre_game_scheduled", 60) :=
  ⟨rfl, by decide⟩

/-- C2 amended: the pregame bucket only admits games with `start_time`
strictly after `now`, so the earliest pregame game's delta is always
positive and the `min(pre_game_post_game, 60)` branch is unreachable; a
lone `pre` game whose start time is not in the future falls through to
`no_games_today` (when the configured check time is well formed). -/
theorem pregame_bucket_excludes_past_starts :
    (∀ (games : List Game) (now : Int) (g : Game) (rest : List Game),
        pregameGames games now = g :: rest → 0 < g.start_time - now) ∧
    (∀ (cfg : Config) (g : Game) (now tod : Int),
        g.is_pregame = true → g.start_time ≤ now →
        mkCheckTime
          ((parseClockTime (cfg.refresh_intervals.daily_schedule_check_time.getD "05:00")).getD (5, 0)).1
          ((parseClockTime (cfg.refresh_intervals.daily_schedule_check_time.getD "05:00")).getD (5, 0)).2
          = .ok tod →
        ∃ s, selectMode cfg [g] now = .ok ("no_games_today", s)) := by
  constructor
  · intro games now g rest h
    have hg : g ∈ pregameGames games now := h ▸ List.mem_cons_self g rest
    have := (mem_pregameGames hg).2
    omega
  · intro cfg g now tod hpre hle ht
    have hstate : g.status_state = "pre" := by
      simpa [Game.is_pregame] using hpre
    have h1 : liveFavoriteGames [g] = [] := by
      simp [liveFavoriteGames, Game.is_live, hstate]
    have h2 : liveOtherGames [g] = [] := by
      simp [liveOtherGames, Game.is_live, hstate]
    have h3 : pregameGames [g] now = [] := by
      simp [pregameGames, List.insertionSort, Game.is_pregame, hstate,
        List.filter, show ¬(now < g.start_time) by omega]
    have h4 : postgameFavoriteGames [g] = [] := by
      simp [postgameFavoriteGames, Game.is_postgame, hstate]
    have h5 : postgameOtherGames [g] = [] := by
      simp [postgameOtherGames, Game.is_postgame, hstate]
    exact ⟨_, selectMode_noGamesBranch cfg [g] now tod h1 h2 h3 h4 h5 ht⟩

/-- Witness for C2 amended: the far-future pregame fixture has positive
delta, and the past-start fixture yields `no_games_today`. -/
theorem pregame_bucket_excludes_past_starts_witness :
    (0 : Int) < gPreFar.start_time - 1000000 ∧
      ∃ s, selectMode cfgPre120 [gPrePast] 1000000 = .ok ("no_games_today", s) :=
  ⟨pregame_bucket_excludes_past_starts.1 [gPreFar] 1000000 gPreFar [] rfl,
    pregame_bucket_excludes_past_starts.2 cfgPre120 gPrePast 1000000 18000
      rfl (by decide) rfl⟩

/-- C3 counterexample: with live mode enabled and the default
`in_progress_favorite_team` interval, the `live_favorites` branch returns a
sleep of 5 seconds, below the claimed 30-second floor. -/
theorem sleep_floor_counterexample :
    selectMode cfgEnabledOnly [gLiveFav] 0 = .ok ("live_favorites", 5) ∧
      ¬(30 ≤ (5 : Int)) :=
  ⟨rfl, by decide⟩

/-- C3 amended: the 30-second floor (and the `int()` floor-rounding) is
applied only in the two branches that compute a sleep — the far-future
pregame branch and the `no_games_today` branch; the remaining branches
return the configured interval unchanged, which may be below 30 (5 by
default for `live_favorites`). -/
theorem sleep_floor_only_in_computed_branches :
    (∀ (cfg : Config) (games : List Game) (now s : Int),
        selectMode cfg games now = .ok ("no_games_today", s) → 30 ≤ s) ∧
    (∀ (cfg : Config) (games : List Game) (now : Int) (g : Game) (rest : List Game),
        liveFavoriteGames games = [] → liveOtherGames games = [] →
        pregameGames games now = g :: rest → 300 ≤ g.start_time - now →
        ∃ s, selectMode cfg games now = .ok ("pre_game_scheduled", s) ∧ 30 ≤ s) := by
  constructor
  · intro cfg games now s h
    simp only [selectMode] at h
    split at h
    · exact absurd h (ok_mode_ne (by decide))
    · split at h
      · exact absurd h (ok_mode_ne (by decide))
      · split at h
        · split at h
          · exact absurd h (ok_mode_ne (by decide))
          · split at h
            · exact absurd h (ok_mode_ne (by decide))
            · exact absurd h (ok_mode_ne (by decide))
        · split at h
          · exact absurd h (ok_mode_ne (by decide))
          · split at h
            · exact absurd h (ok_mode_ne (by decide))
            · split at h
              · exact absurd h (Except.noConfusion)
              · injection h with h1
                have h2 : _ = s := congrArg Prod.snd h1
                simp only at h2
                omega
  · intro cfg games now g rest h1 h2 hp hd
    exact ⟨_, selectMode_pregameFar cfg games now g rest h1 h2 hp hd, le_max_right _ _⟩

/-- Witness for C3 amended: the empty game list yields a `no_games_today`
sleep of at least 30, and the far-future pregame fixture yields a
`pre_game_scheduled` sleep of at least 30. -/
theorem sleep_floor_only_in_computed_branches_witness :
    (30 : Int) ≤ 900 ∧
      ∃ s, selectMode cfgPre300 [gPreFar] 1000000 = .ok ("pre_game_scheduled", s) ∧ 30 ≤ s :=
  ⟨sleep_floor_only_in_computed_branches.1 ({} : Config) [] 14400 900 rfl,
    sleep_floor_only_in_computed_branches.2 cfgPre300 [gPreFar] 1000000 gPreFar []
      rfl rfl rfl (by decide)⟩

/-- C4: with no live games and the earliest pregame game at least 300
seconds away, the selector returns `pre_game_scheduled` with sleep
`max(min(delta - 60, pre_game_post_game), 30)`. -/
theorem pregame_far_future_sleep
    (cfg : Config) (games : List Game) (now : Int) (g : Game) (rest : List Game)
    (hnl : ∀ g2 ∈ games, g2.is_live = false)
    (hp : pregameGames games now = g :: rest)
    (hd : 300 ≤ g.start_time - now) :
    selectMode cfg games now = .ok ("pre_game_scheduled",
      max (min (g.start_time - now - 60)
        (cfg.refresh_intervals.pre_game_post_game.getD 300)) 30) := by
  have h1 : liveFavoriteGames games = [] := by
    unfold liveFavoriteGames
    rw [List.filter_eq_nil_iff]
    intro a ha
    simp [hnl a ha]
  have h2 : liveOtherGames games = [] := by
    unfold liveOtherGames
    rw [List.filter_eq_nil_iff]
    intro a ha
    simp [hnl a ha]
  exact selectMode_pregameFar cfg games now g rest h1 h2 hp hd

/-- Witness for C4: a pregame game 10000 seconds away with
`pre_game_post_game = 300` sleeps `max(min(9940, 300), 30) = 300`. -/
theorem pregame_far_future_sleep_witness :
    selectMode cfgPre300 [gPreFar] 1000000 = .ok ("pre_game_scheduled", 300) :=
  (pregame_far_future_sleep cfgPre300 [gPreFar] 1000000 gPreFar []
    (by decide) rfl (by decide)).trans (by decide)

/-- C5: when every partition bucket is empty the selector returns
`no_games_today` with sleep `max(min(next_check - now, no_games), 30)`,
where `next_check` is today's configured check time if still in the future
relative to `now` and tomorrow's occurrence of that time otherwise. -/
theorem no_games_next_check_sleep
    (cfg : Config) (games : List Game) (now ch cm : Int)
    (h1 : liveFavoriteGames games = []) (h2 : liveOtherGames games = [])
    (h3 : pregameGames games now = []) (h4 : postgameFavoriteGames games = [])
    (h5 : postgameOtherGames games = [])
    (hparse : parseClockTime (cfg.refresh_intervals.daily_schedule_check_time.getD "05:00")
      = some (ch, cm))
    (hh : 0 ≤ ch ∧ ch < 24) (hm : 0 ≤ cm ∧ cm < 60) :
    selectMode cfg games now = .ok ("no_games_today",
      max (min ((if now < now.fdiv 86400 * 86400 + (ch * 3600 + cm * 60)
                 then now.fdiv 86400 * 86400 + (ch * 3600 + cm * 60)
                 else now.fdiv 86400 * 86400 + (ch * 3600 + cm * 60) + 86400) - now)
        (cfg.refresh_intervals.no_games.getD 900)) 30) := by
  have ht : mkCheckTime
      ((parseClockTime (cfg.refresh_intervals.daily_schedule_check_time.getD "05:00")).getD (5, 0)).1
      ((parseClockTime (cfg.refresh_intervals.daily_schedule_check_time.getD "05:00")).getD (5, 0)).2
      = .ok (ch * 3600 + cm * 60) := by
    rw [hparse]
    unfold mkCheckTime
    exact if_pos ⟨hh.1, hh.2, hm.1, hm.2⟩
  have hmain := selectMode_noGamesBranch cfg games now (ch * 3600 + cm * 60)
    h1 h2 h3 h4 h5 ht
  have heq : (if now < now.fdiv 86400 * 86400 + (ch * 3600 + cm * 60)
              then now.fdiv 86400 * 86400 + (ch * 3600 + cm * 60) - now
              else now.fdiv 86400 * 86400 + (ch * 3600 + cm * 60) + 86400 - now)
      = (if now < now.fdiv 86400 * 86400 + (ch * 3600 + cm * 60)
         then now.fdiv 86400 * 86400 + (ch * 3600 + cm * 60)
         else now.fdiv 86400 * 86400 + (ch * 3600 + cm * 60) + 86400) - now := by
    split <;> omega
  rw [heq] at hmain
  exact hmain

/-- Witness for C5: the empty game list at 04:00 with the default "05:00"
check time and default `no_games = 900` sleeps `max(min(3600, 900), 30) = 900`. -/
theorem no_games_next_check_sleep_witness :
    selectMode ({} : Config) [] 14400 = .ok ("no_games_today", 900) :=
  (no_games_next_check_sleep {} [] 14400 5 0 rfl rfl rfl rfl rfl rfl
    (by decide) (by decide)).trans (by decide)

lemma fetchLeagueStep_acc (fetchParse : String → String → Except String (List Game))
    (sport_value : String) (lc : LeagueConfig) (acc : List Game) :
    fetchLeagueStep fetchParse sport_value acc lc
      = acc ++ fetchLeagueStep fetchParse sport_value [] lc := by
  unfold fetchLeagueStep
  cases hlc : lc.id with
  | none => simp
  | some league_id =>
    by_cases hid : league_id = ""
    · simp [hid]
    · cases hfp : fetchParse sport_value league_id <;> simp [hid, hfp]

lemma foldl_fetchLeagueStep_acc (fetchParse : String → String → Except String (List Game))
    (sport_value : String) (leagues : List LeagueConfig) :
    ∀ acc : List Game,
      leagues.foldl (fetchLeagueStep fetchParse sport_value) acc
        = acc ++ leagues.foldl (fetchLeagueStep fetchParse sport_value) [] := by
  induction leagues with
  | nil => simp
  | cons lc rest ih =>
    intro acc
    rw [List.foldl_cons, List.foldl_cons, ih (fetchLeagueStep fetchParse sport_value acc lc),
      ih (fetchLeagueStep fetchParse sport_value [] lc), fetchLeagueStep_acc, List.append_assoc]

lemma foldl_fetchLeagueStep_eq_spec (fetchParse : String → String → Except String (List Game))
    (sport_value : String) (leagues : List LeagueConfig) :
    leagues.foldl (fetchLeagueStep fetchParse sport_value) []
      = specSuccessfulLeagueGames fetchParse (leagues.filterMap (leaguePairOf sport_value)) := by
  induction leagues with
  | nil => rfl
  | cons lc rest ih =>
    rw [List.foldl_cons, foldl_fetchLeagueStep_acc, ih]
    cases hlc : lc.id with
    | none => simp [fetchLeagueStep, hlc, List.filterMap_cons, leaguePairOf]
    | some league_id =>
      by_cases hid : league_id = ""
      · simp [fetchLeagueStep, hlc, hid, List.filterMap_cons, leaguePairOf]
      · cases hfp : fetchParse sport_value league_id <;>
          simp [fetchLeagueStep, hlc, hid, hfp, List.filterMap_cons, leaguePairOf,
            specSuccessfulLeagueGames]

lemma foldl_sports_acc (fetchParse : String → String → Except String (List Game))
    (sports : List (String × SportConfig)) :
    ∀ acc : List Game,
      sports.foldl (fun acc p => p.2.leagues.foldl (fetchLeagueStep fetchParse p.1) acc) acc
        = acc ++ sports.foldl (fun acc p => p.2.leagues.foldl (fetchLeagueStep fetchParse p.1) acc) [] := by
  induction sports with
  | nil => simp
  | cons p rest ih =>
    intro acc
    rw [List.foldl_cons, List.foldl_cons, ih (p.2.leagues.foldl (fetchLeagueStep fetchParse p.1) acc),
      ih (p.2.leagues.foldl (fetchLeagueStep fetchParse p.1) []),
      foldl_fetchLeagueStep_acc, List.append_assoc]

lemma specSuccessfulLeagueGames_append (fetchParse : String → String → Except String (List Game))
    (pairs1 pairs2 : List (String × String)) :
    specSuccessfulLeagueGames fetchParse (pairs1 ++ pairs2)
      = specSuccessfulLeagueGames fetchParse pairs1 ++ specSuccessfulLeagueGames fetchParse pairs2 := by
  simp [specSuccessfulLeagueGames]

lemma fetchLeagues_eq_spec (sports : List (String × SportConfig))
    (fetchParse : String → String → Except String (List Game)) :
    fetchLeagues sports fetchParse
      = specSuccessfulLeagueGames fetchParse (leaguePairs sports) := by
  induction sports with
  | nil => rfl
  | cons p rest ih =>
    unfold fetchLeagues at ih ⊢
    rw [List.foldl_cons, foldl_sports_acc, foldl_fetchLeagueStep_eq_spec, ih]
    rw [show leaguePairs (p :: rest)
        = p.2.leagues.filterMap (leaguePairOf p.1) ++ leaguePairs rest by simp [leaguePairs]]
    rw [specSuccessfulLeagueGames_append]

lemma fullFetchCond_iff (st : SchedulerState) (current_date today_check_dt now : Int) :
    (isNewDayForCheck st current_date today_check_dt now || st.all_games_data.isEmpty) = true
      ↔ (st.all_games_data = []
        ∨ st.last_daily_schedule_check_date = none
        ∨ (∃ d, st.last_daily_schedule_check_date = some d ∧ d < current_date)
        ∨ (st.last_daily_schedule_check_date = some current_date
            ∧ today_check_dt ≤ now ∧ st.all_games_data = [])) := by
  unfold isNewDayForCheck
  cases hlast : st.last_daily_schedule_check_date with
  | none => simp [List.isEmpty_iff]
  | some d =>
    simp only [hlast, Option.isNone_some, Bool.false_or, Bool.or_eq_true,
      Bool.and_eq_true, decide_eq_true_eq, List.isEmpty_iff, Option.some.injEq]
    constructor
    · rintro ((hd | ⟨⟨hd, hc⟩, hg⟩) | hg)
      · exact Or.inr (Or.inr (Or.inl ⟨d, rfl, hd⟩))
      · exact Or.inr (Or.inr (Or.inr ⟨hd, hc, hg⟩))
      · exact Or.inl hg
    · rintro (hg | hnone | ⟨d2, hd2, hlt⟩ | ⟨hd, hc, hg⟩)
      · exact Or.inr hg
      · exact absurd hnone (by simp)
      · exact Or.inl (Or.inl (by omega))
      · exact Or.inl (Or.inr ⟨⟨hd, hc⟩, hg⟩)

/-- C6: a fetch pass performs the full discovery fetch exactly when
`all_games_data` is empty or the new-day condition holds (no prior check
date, prior date before today, or prior date equal to today with the clock
at or past the check time and zero games from the prior pass); the full
path records today as the last check date, the incremental path keeps the
old one, and both paths replace `all_games_data` wholesale with the games
fetched for every configured (sport, league) pair. -/
theorem fetch_pass_full_vs_incremental
    (cfg : Config) (fetchParse : String → String → Except String (List Game))
    (now tod : Int) (st : SchedulerState)
    (ht : mkCheckTime
        ((parseClockTime (cfg.refresh_intervals.daily_schedule_check_time.getD "05:00")).getD (5, 0)).1
        ((parseClockTime (cfg.refresh_intervals.daily_schedule_check_time.getD "05:00")).getD (5, 0)).2
        = .ok tod) :
    (((st.all_games_data = []
        ∨ st.last_daily_schedule_check_date = none
        ∨ (∃ d, st.last_daily_schedule_check_date = some d ∧ d < now.fdiv 86400)
        ∨ (st.last_daily_schedule_check_date = some (now.fdiv 86400)
            ∧ now.fdiv 86400 * 86400 + tod ≤ now ∧ st.all_games_data = []))) →
      fetchAllSportData cfg fetchParse now st = .ok
        { current_display_mode := st.current_display_mode,
          last_data_fetch_time := some now,
          all_games_data := fetchLeagues cfg.sports fetchParse,
          last_daily_schedule_check_date := some (now.fdiv 86400) }) ∧
    ((¬(st.all_games_data = []
        ∨ st.last_daily_schedule_check_date = none
        ∨ (∃ d, st.last_daily_schedule_check_date = some d ∧ d < now.fdiv 86400)
        ∨ (st.last_daily_schedule_check_date = some (now.fdiv 86400)
            ∧ now.fdiv 86400 * 86400 + tod ≤ now ∧ st.all_games_data = []))) →
      fetchAllSportData cfg fetchParse now st = .ok
        { current_display_mode := st.current_display_mode,
          last_data_fetch_time := some now,
          all_games_data := fetchLeagues cfg.sports fetchParse,
          last_daily_schedule_check_date := st.last_daily_schedule_check_date }) := by
  constructor
  · intro hcond
    have hb := (fullFetchCond_iff st (now.fdiv 86400) (now.fdiv 86400 * 86400 + tod) now).mpr hcond
    simp only [fetchAllSportData, ht]
    rw [if_pos hb]
  · intro hcond
    have hb : ¬((isNewDayForCheck st (now.fdiv 86400) (now.fdiv 86400 * 86400 + tod) now
        || st.all_games_data.isEmpty) = true) := fun hh =>
      hcond ((fullFetchCond_iff st (now.fdiv 86400) (now.fdiv 86400 * 86400 + tod) now).mp hh)
    simp only [fetchAllSportData, ht]
    rw [if_neg hb]

/-- Witness for C6: from the initial state (no prior check date), the full
path fires and records the fetch date. -/
theorem fetch_pass_full_vs_incremental_witness :
    fetchAllSportData cfgTwo fetchEmpty 14400 st0 = .ok
      { current_display_mode := st0.current_display_mode,
        last_data_fetch_time := some 14400,
        all_games_data := fetchLeagues cfgTwo.sports fetchEmpty,
        last_daily_schedule_check_date := some ((14400 : Int).fdiv 86400) } :=
  (fetch_pass_full_vs_incremental cfgTwo fetchEmpty 14400 18000 st0 rfl).1
    (Or.inl rfl)

lemma fetchAllSportData_ok (cfg : Config)
    (fetchParse : String → String → Except String (List Game))
    (now : Int) (st : SchedulerState) (tod : Int)
    (ht : mkCheckTime
        ((parseClockTime (cfg.refresh_intervals.daily_schedule_check_time.getD "05:00")).getD (5, 0)).1
        ((parseClockTime (cfg.refresh_intervals.daily_schedule_check_time.getD "05:00")).getD (5, 0)).2
        = .ok tod) :
    ∃ st2, fetchAllSportData cfg fetchParse now st = .ok st2
      ∧ st2.all_games_data = fetchLeagues cfg.sports fetchParse := by
  simp only [fetchAllSportData, ht]
  split
  · exact ⟨_, rfl, rfl⟩
  · exact ⟨_, rfl, rfl⟩

/-- C7: a league whose fetch or parse raises contributes zero games while
the remaining leagues are still fetched — the pass computes exactly the
concatenation of the successfully fetched leagues' games — and the pass
itself does not raise (given a well-formed check time), storing that
concatenation into `all_games_data`. -/
theorem fetch_fault_isolation :
    (∀ (sports : List (String × SportConfig))
        (fetchParse : String → String → Except String (List Game)),
        fetchLeagues sports fetchParse
          = specSuccessfulLeagueGames fetchParse (leaguePairs sports)) ∧
    (∀ (cfg : Config) (fetchParse : String → String → Except String (List Game))
        (now tod : Int) (st : SchedulerState),
        mkCheckTime
          ((parseClockTime (cfg.refresh_intervals.daily_schedule_check_time.getD "05:00")).getD (5, 0)).1
          ((parseClockTime (cfg.refresh_intervals.daily_schedule_check_time.getD "05:00")).getD (5, 0)).2
          = .ok tod →
        ∃ st2, fetchAllSportData cfg fetchParse now st = .ok st2
          ∧ st2.all_games_data = fetchLeagues cfg.sports fetchParse) := by
  constructor
  · exact fetchLeagues_eq_spec
  · exact fun cfg fetchParse now tod st ht => fetchAllSportData_ok cfg fetchParse now st tod ht

/-- Witness for C7: with the nfl fetch succeeding and the mlb fetch
raising, the pass returns successfully and the games are exactly the nfl
games. -/
theorem fetch_fault_isolation_witness :
    fetchLeagues sportsTwo fetchAB = specSuccessfulLeagueGames fetchAB (leaguePairs sportsTwo)
      ∧ (∃ st2, fetchAllSportData cfgTwo fetchAB 14400 st0 = .ok st2
          ∧ st2.all_games_data = fetchLeagues cfgTwo.sports fetchAB)
      ∧ fetchLeagues sportsTwo fetchAB = [gLiveOther] :=
  ⟨fetch_fault_isolation.1 sportsTwo fetchAB,
    fetch_fault_isolation.2 cfgTwo fetchAB 14400 18000 st0 rfl,
    rfl⟩

lemma selectMode_isOk (cfg : Config) (games : List Game) (now tod : Int)
    (ht : mkCheckTime
        ((parseClockTime (cfg.refresh_intervals.daily_schedule_check_time.getD "05:00")).getD (5, 0)).1
        ((parseClockTime (cfg.refresh_intervals.daily_schedule_check_time.getD "05:00")).getD (5, 0)).2
        = .ok tod) :
    ∃ r, selectMode cfg games now = .ok r := by
  cases h : selectMode cfg games now with
  | ok r => exact ⟨r, rfl⟩
  | error e =>
    exfalso
    simp only [selectMode, ht] at h
    split at h
    · exact Except.noConfusion h
    · split at h
      · exact Except.noConfusion h
      · split at h
        · split at h
          · exact Except.noConfusion h
          · split at h
            · exact Except.noConfusion h
            · exact Except.noConfusion h
        · split at h
          · exact Except.noConfusion h
          · split at h
            · exact Except.noConfusion h
            · exact Except.noConfusion h

/-- C8: any exception raised by one iteration's body is caught by the
`while True` loop, which sleeps a fixed 30 seconds instead and then simply
continues: the iteration step is total and its step-`n` unfolding after an
error proceeds from the state the body had reached. -/
theorem run_loop_exception_containment
    (body : SchedulerState → SchedulerState × Except String Int)
    (st st2 : SchedulerState) (e : String)
    (hbody : body st = (st2, .error e)) :
    runLoopIter body st = (st2, 30)
      ∧ ∀ n, runSteps body (n + 1) st = runSteps body n st2 := by
  have hiter : runLoopIter body st = (st2, 30) := by
    unfold runLoopIter
    rw [hbody]
  refine ⟨hiter, fun n => ?_⟩
  show runSteps body n (runLoopIter body st).1 = runSteps body n st2
  rw [hiter]

/-- Witness for C8: with an out-of-range configured check time the real
iteration body raises; the loop converts this into a 30-second sleep and
keeps iterating from the same state. -/
theorem run_loop_exception_containment_witness :
    runLoopIter (iterationBody cfgBadTime fetchEmpty 14400) st0 = (st0, 30)
      ∧ runSteps (iterationBody cfgBadTime fetchEmpty 14400) 1 st0
          = runSteps (iterationBody cfgBadTime fetchEmpty 14400) 0 st0 :=
  have h := run_loop_exception_containment (iterationBody cfgBadTime fetchEmpty 14400)
    st0 st0 "ValueError: hour or minute out of range" rfl
  ⟨h.1, h.2 0⟩

/-- C9 counterexample: the configured check time "25:00" is not a valid
HH:MM time, yet neither function falls back to 05:00 — the `time.replace`
call outside the `try` raises `ValueError` in both the fetch-pass decision
and the mode selector's no-games branch. -/
theorem bad_check_time_counterexample :
    fetchAllSportData cfgBadTime fetchEmpty 14400 st0
        = .error "ValueError: hour or minute out of range"
      ∧ selectMode cfgBadTime [] 14400
        = .error "ValueError: hour or minute out of range" :=
  ⟨rfl, rfl⟩

/-- C9 amended: the 05:00 fallback applies exactly to strings on which the
`int` conversion of the split parts raises (caught `ValueError`): for those,
both the fetch-pass decision and the mode selector behave as if the
configured time were "05:00" and neither raises; a string that parses to an
out-of-range hour or minute instead raises from the uncaught time
construction (see the counterexample). -/
theorem bad_check_time_fallback
    (s : String) (hp : parseClockTime s = none)
    (cfg : Config) (games : List Game)
    (fetchParse : String → String → Except String (List Game))
    (now : Int) (st : SchedulerState) :
    (selectMode
        { cfg with refresh_intervals :=
            { cfg.refresh_intervals with daily_schedule_check_time := some s } } games now
      = selectMode
        { cfg with refresh_intervals :=
            { cfg.refresh_intervals with daily_schedule_check_time := some "05:00" } } games now)
    ∧ (∃ r, selectMode
        { cfg with refresh_intervals :=
            { cfg.refresh_intervals with daily_schedule_check_time := some s } } games now
        = .ok r)
    ∧ (fetchAllSportData
        { cfg with refresh_intervals :=
            { cfg.refresh_intervals with daily_schedule_check_time := some s } } fetchParse now st
      = fetchAllSportData
        { cfg with refresh_intervals :=
            { cfg.refresh_intervals with daily_schedule_check_time := some "05:00" } } fetchParse now st)
    ∧ (∃ st2, fetchAllSportData
        { cfg with refresh_intervals :=
            { cfg.refresh_intervals with daily_schedule_check_time := some s } } fetchParse now st
        = .ok st2) := by
  have ht : mkCheckTime
      ((parseClockTime
        (({ cfg with refresh_intervals :=
            { cfg.refresh_intervals with daily_schedule_check_time := some s } } : Config).refresh_intervals.daily_schedule_check_time.getD "05:00")).getD (5, 0)).1
      ((parseClockTime
        (({ cfg with refresh_intervals :=
            { cfg.refresh_intervals with daily_schedule_check_time := some s } } : Config).refresh_intervals.daily_schedule_check_time.getD "05:00")).getD (5, 0)).2
      = .ok 18000 := by
    simp only [Option.getD_some]
    rw [hp]
    rfl
  have h5 : parseClockTime "05:00" = some (5, 0) := rfl
  refine ⟨?_, ?_, ?_, ?_⟩
  · simp [selectMode, hp, h5]
  · exact selectMode_isOk _ games now 18000 ht
  · simp [fetchAllSportData, hp, h5]
  · obtain ⟨st2, h1, _⟩ := fetchAllSportData_ok _ fetchParse now st 18000 ht
    exact ⟨st2, h1⟩

/-- Witness for C9 amended: the unparseable string "banana" makes both
functions behave exactly as with "05:00", without raising. -/
theorem bad_check_time_fallback_witness :
    (selectMode
        { refresh_intervals := { daily_schedule_check_time := some "banana" } } [] 14400
      = selectMode
        { refresh_intervals := { daily_schedule_check_time := some "05:00" } } [] 14400)
    ∧ (∃ r, selectMode
        { refresh_intervals := { daily_schedule_check_time := some "banana" } } [] 14400 = .ok r)
    ∧ (fetchAllSportData
        { refresh_intervals := { daily_schedule_check_time := some "banana" } } fetchEmpty 14400 st0
      = fetchAllSportData
        { refresh_intervals := { daily_schedule_check_time := some "05:00" } } fetchEmpty 14400 st0)
    ∧ (∃ st2, fetchAllSportData
        { refresh_intervals := { daily_schedule_check_time := some "banana" } } fetchEmpty 14400 st0
        = .ok st2) :=
  bad_check_time_fallback "banana" rfl {} [] fetchEmpty 14400 st0

/-- C10: the parser returns `[]` for a payload that is empty or lacks an
`events` key; an event missing any critical field (id, parseable
date/start time, status state, home team id, away team id) is skipped
rather than emitted; and every emitted game carries truthy (non-null,
non-empty) critical fields. -/
theorem parser_critical_fields :
    (∀ (fromIso : String → Option Int) (fav : List (String × List String))
        (raw : RawData), raw.events = none → parse_events fromIso fav raw = []) ∧
    (∀ (fromIso : String → Option Int) (fav : List (String × List String))
        (ss ls : Option String) (e : RawEvent),
        (e.id = none ∨ e.date = none ∨ e.status.bind (fun st => st.state) = none
          ∨ eventHomeTeamId e = none ∨ eventAwayTeamId e = none) →
        parseEventAux fromIso fav ss ls e = none) ∧
    (∀ (fromIso : String → Option Int) (fav : List (String × List String))
        (ss ls : Option String) (e : RawEvent) (g : Game),
        parseEventAux fromIso fav ss ls e = some g →
        g.game_id ≠ "" ∧ g.status_state ≠ "" ∧ g.home_team_id ≠ "" ∧ g.away_team_id ≠ "") := by
  refine ⟨?_, ?_, ?_⟩
  · intro fromIso fav raw hev
    simp [parse_events, hev]
  · intro fromIso fav ss ls e hcrit
    unfold parseEventAux
    cases hst : eventStartTimeResult fromIso e with
    | none => rfl
    | some start_time =>
      cases hcomp : e.competitions with
      | nil => rfl
      | cons competition_data rest =>
        rcases hcrit with hid | hdate | hstate | hhome | haway
        · simp [hid]
        · have : start_time = none := by
            rw [eventStartTimeResult, hdate] at hst
            exact (Option.some.injEq _ _).mp hst.symm
          simp [this]
        · simp [hstate]
        · simp only [eventHomeTeamId, hcomp] at hhome
          simp [hhome]
        · simp only [eventAwayTeamId, hcomp] at haway
          simp [haway]
  · intro fromIso fav ss ls e g h
    unfold parseEventAux at h
    cases hst : eventStartTimeResult fromIso e with
    | none =>
      simp only [hst] at h
      exact Option.noConfusion h
    | some start_time =>
      simp only [hst] at h
      cases hcomp : e.competitions with
      | nil =>
        simp only [hcomp] at h
        exact Option.noConfusion h
      | cons competition_data rest =>
        simp only [hcomp] at h
        split at h
        · split at h
          · rename_i hgid hcond
            injection h with hg
            subst hg
            simpa using hcond
          · exact Option.noConfusion h
        · exact Option.noConfusion h

/-- Witness for C10: the empty payload parses to `[]`, the all-absent
event is skipped, and the complete fixture event parses to a game with
truthy critical fields. -/
theorem parser_critical_fields_witness :
    parse_events fromIso0 [] {} = []
      ∧ parseEventAux fromIso0 [] none none evNoId = none
      ∧ (gFull.game_id ≠ "" ∧ gFull.status_state ≠ ""
          ∧ gFull.home_team_id ≠ "" ∧ gFull.away_team_id ≠ "") :=
  ⟨parser_critical_fields.1 fromIso0 [] {} rfl,
    parser_critical_fields.2.1 fromIso0 [] none none evNoId (Or.inl rfl),
    parser_critical_fields.2.2 fromIso0 [] none none evFull gFull rfl⟩

end Scoreboard
